import Mathlib

/-!
Shallow embedding of the TLS connector manager of `src/gateway/src/shard/tls.rs`
and the cache thread-event forwarding of `src/cache/in-memory/src/event/thread.rs`,
with the theorems that settle the specification claims about them.

Conventions of the embedding:
* Rust `Result<T, E>` becomes `Except E T`.
* The two mutually exclusive compile-time TLS backends (`native` vs `rustls`)
  become the two variants of the sum type `TlsConnector`; a `cfg`-guarded
  branch of the source becomes the matching arm on that sum.
* `Arc<T>` (shared ownership) is modelled as a value carrying an allocation
  identity `id`; `Arc::clone` keeps the identity (reference-count increment,
  no new allocation), so pointer sharing is observable as equality of `id`.
* Calls into external crates that can fail (`native_tls::TlsConnector::new`,
  `rustls_native_certs::load_native_certs`) are modelled by passing their
  outcome in as an explicit `Except` argument.
-/

namespace Twilight

/-- An opaque underlying error produced by an external crate
(`native_tls` construction error or the native-certificate loader error);
only its presence or absence matters to the claims. -/
structure ExtError where
  message : String
deriving DecidableEq, Repr

/-- Host of a parsed URL, following the `url` crate's internal host
representation: a registrable domain name, an IPv4 address, or an IPv6
address. `Url::domain()` yields a string only for the `domain` variant. -/
inductive Host where
  | domain (s : String)
  | ipv4 (a b c d : Nat)
  | ipv6 (segments : List Nat)
deriving DecidableEq, Repr

/-- A parsed URL, restricted to the components `tls_domain` can observe:
the optional host and the optional explicit port. -/
structure Url where
  host : Option Host
  port : Option Nat
deriving DecidableEq, Repr

/-- The `url` crate's `Url::domain`: the host as a string if it is a domain
name; `none` if the URL has no host or the host is an IP address. -/
def Url.domain (u : Url) : Option String :=
  match u.host with
  | some (Host.domain s) => some s
  | _ => none

/-- Shared-ownership handle (`std::sync::Arc`): a value together with the
identity of its heap allocation. -/
structure Arc (α : Type) where
  id : Nat
  val : α
deriving DecidableEq, Repr

/-- `Arc::clone`: increments the reference count of the same allocation and
returns a handle to it; no new allocation and no copy of the value. -/
def Arc.clone {α : Type} (a : Arc α) : Arc α := a

/-- State of a `native_tls::TlsConnector` (external crate); opaque to this
module, cheap to clone by value. -/
structure NativeTlsState where
  tag : Nat
deriving DecidableEq, Repr

/-- A certificate trust anchor; contents are opaque to this module. -/
structure TrustAnchor where
  data : String
deriving DecidableEq, Repr

/-- `rustls_tls::ClientConfig`, restricted to the one field the source
touches: the root certificate store. -/
structure ClientConfig where
  root_store : List TrustAnchor
deriving DecidableEq, Repr

/-- `ClientConfig::new()`: a fresh configuration with an empty root store. -/
def ClientConfig.new : ClientConfig :=
  { root_store := [] }

/-- The bundled `webpki_roots::TLS_SERVER_ROOTS` trust-anchor set; the
actual anchor contents are irrelevant to every claim and abstracted. -/
def TLS_SERVER_ROOTS : List TrustAnchor :=
  [{ data := "webpki-bundled-roots" }]

/-- `ClientConfig::root_store.add_server_trust_anchors`: appends the given
anchors to the root store. -/
def ClientConfig.add_server_trust_anchors (c : ClientConfig)
    (anchors : List TrustAnchor) : ClientConfig :=
  { c with root_store := c.root_store ++ anchors }

/-- The `TlsConnector` type alias of `tls.rs`: under the `native` feature it
is `native_tls::TlsConnector`, under the `rustls` feature it is
`Arc<ClientConfig>`; the mutually exclusive compile-time choice is embedded
as this sum. -/
inductive TlsConnector where
  | native (c : NativeTlsState)
  | rustls (c : Arc ClientConfig)
deriving DecidableEq, Repr

/-- `TlsConnector::clone` as used by `TlsContainer`'s derived `Clone`:
`native_tls::TlsConnector` is a cheap value clone and `Arc::clone` shares
the allocation, so both arms return the same handle. -/
def TlsConnector.clone (t : TlsConnector) : TlsConnector :=
  match t with
  | TlsConnector.native c => TlsConnector.native c
  | TlsConnector.rustls a => TlsConnector.rustls a.clone

/-- `TlsErrorType` of `tls.rs`: which kind of TLS error occurred. -/
inductive TlsErrorType where
  | NativeTls
  | NativeCerts
  | NoDomain
deriving DecidableEq, Repr

/-- `TlsError` of `tls.rs`: a kind plus an optional boxed underlying cause. -/
structure TlsError where
  kind : TlsErrorType
  source : Option ExtError
deriving DecidableEq, Repr

/-- `TlsError::into_source`: consume the error, returning the underlying
source error if there is any. -/
def TlsError.into_source (e : TlsError) : Option ExtError :=
  e.source

/-- `TlsError::into_parts`: the owned kind and the source error. -/
def TlsError.into_parts (e : TlsError) : TlsErrorType × Option ExtError :=
  (e.kind, e.source)

/-- `tokio_tungstenite::Connector` (external): the connector handle handed
to the socket layer, tagged with the TLS backend it belongs to. -/
inductive Connector where
  | Plain
  | NativeTls (c : NativeTlsState)
  | Rustls (c : Arc ClientConfig)
deriving DecidableEq, Repr

/-- `TlsContainer` of `tls.rs`: the manager, holding exactly one connector. -/
structure TlsContainer where
  tls : TlsConnector
deriving DecidableEq, Repr

/-- The derived `Clone` of `TlsContainer`: clones the single `tls` field. -/
def TlsContainer.clone (c : TlsContainer) : TlsContainer :=
  { tls := c.tls.clone }

/-- `TlsContainer::new` under `native` (and not `rustls`): construct the
native connector — the outcome `r` of the external
`native_tls::TlsConnector::new()` call is passed in — mapping a failure to
a `NativeTls` error wrapping the underlying cause. -/
def TlsContainer.newNative (r : Except ExtError NativeTlsState) :
    Except TlsError TlsContainer :=
  match r with
  | Except.error err =>
      Except.error { kind := TlsErrorType.NativeTls, source := some err }
  | Except.ok native_connector =>
      Except.ok { tls := TlsConnector.native native_connector }

/-- `TlsContainer::new` under `rustls` with the `rustls-webpki-roots`
feature (bundled anchors, no `rustls-native-roots`): build a fresh
`ClientConfig`, add the bundled trust anchors, and wrap it in a new `Arc`
whose allocation identity is `fresh`. No failure path exists. -/
def TlsContainer.newRustlsWebpki (fresh : Nat) : Except TlsError TlsContainer :=
  let config := ClientConfig.new
  let config := config.add_server_trust_anchors TLS_SERVER_ROOTS
  Except.ok { tls := TlsConnector.rustls { id := fresh, val := config } }

/-- `TlsContainer::new` under `rustls` with the `rustls-native-roots`
feature: the outcome `r` of the external
`rustls_native_certs::load_native_certs()` call is passed in; a loader
failure maps to a `NativeCerts` error wrapping the underlying cause,
otherwise the loaded store replaces the root store. -/
def TlsContainer.newRustlsNativeRoots (r : Except ExtError (List TrustAnchor))
    (fresh : Nat) : Except TlsError TlsContainer :=
  let config := ClientConfig.new
  match r with
  | Except.error err =>
      Except.error { kind := TlsErrorType.NativeCerts, source := some err }
  | Except.ok native_certs =>
      let config := { config with root_store := native_certs }
      Except.ok { tls := TlsConnector.rustls { id := fresh, val := config } }

/-- `TlsContainer::tls_domain`, embedded with the receiver threaded through
explicitly: the returned first component is the container state after the
call (the source takes `&self` and only reads it). The body mirrors the
source: take `url.domain()` or fail with `NoDomain` and no source; build
the address `domain ++ ":443"`; return a clone of the stored connector
tagged with the active backend. -/
def TlsContainer.tls_domainSt (c : TlsContainer) (url : Url) :
    TlsContainer × Except TlsError (String × Connector) :=
  match url.domain with
  | none =>
      (c, Except.error { kind := TlsErrorType.NoDomain, source := none })
  | some domain =>
      let address := domain ++ ":443"
      match c.tls with
      | TlsConnector.native n => (c, Except.ok (address, Connector.NativeTls n))
      | TlsConnector.rustls a =>
          (c, Except.ok (address, Connector.Rustls a.clone))

/-- The result of `TlsContainer::tls_domain` (the value the caller sees). -/
def TlsContainer.tls_domain (c : TlsContainer) (url : Url) :
    Except TlsError (String × Connector) :=
  (c.tls_domainSt url).2

/-- Resource types an in-memory cache can be configured to want; only
`CHANNEL` is observed by the thread-event handlers. -/
inductive ResourceType where
  | CHANNEL
  | GUILD
  | MEMBER
  | MESSAGE
  | USER
deriving DecidableEq, Repr

/-- A channel (a thread is a kind of channel), reduced to its id and
opaque payload data. -/
structure Channel where
  id : Nat
  data : String
deriving DecidableEq, Repr

/-- The in-memory cache, reduced to what the thread-event handlers touch:
the configured set of wanted resource types and the channel store. -/
structure InMemoryCache where
  wanted : List ResourceType
  channels : List (Nat × Channel)
deriving DecidableEq, Repr

/-- Modelled from the spec: `InMemoryCache::wants`, the "is this resource
type wanted" predicate gating every cache update (the cache configuration
type is not part of the given sources). -/
def InMemoryCache.wants (c : InMemoryCache) (r : ResourceType) : Bool :=
  c.wanted.contains r

/-- Modelled from the spec: the storage insert primitive
`InMemoryCache::cache_channel` (its definition is not part of the given
sources) — store the channel under its id, replacing any previous entry. -/
def InMemoryCache.cache_channel (c : InMemoryCache) (ch : Channel) :
    InMemoryCache :=
  { c with channels := (ch.id, ch) :: c.channels.filter (fun p => p.1 != ch.id) }

/-- Modelled from the spec: the storage delete primitive
`InMemoryCache::delete_channel` (its definition is not part of the given
sources) — remove the channel stored under the id, if any. -/
def InMemoryCache.delete_channel (c : InMemoryCache) (id : Nat) :
    InMemoryCache :=
  { c with channels := c.channels.filter (fun p => p.1 != id) }

/-- Modelled from the spec: the bulk storage insert primitive
`InMemoryCache::cache_channels` (its definition is not part of the given
sources) — insert every channel of the list. -/
def InMemoryCache.cache_channels (c : InMemoryCache) (chs : List Channel) :
    InMemoryCache :=
  chs.foldl InMemoryCache.cache_channel c

/-- The `ThreadCreate` event payload: a newtype over the thread's channel. -/
structure ThreadCreate where
  channel : Channel
deriving DecidableEq, Repr

/-- The `ThreadUpdate` event payload: a newtype over the thread's channel. -/
structure ThreadUpdate where
  channel : Channel
deriving DecidableEq, Repr

/-- The `ThreadDelete` event payload, reduced to the one field the handler
reads: the id of the deleted thread. -/
structure ThreadDelete where
  id : Nat
deriving DecidableEq, Repr

/-- The `ThreadListSync` event payload, reduced to the one field the handler
reads: the list of active threads. -/
structure ThreadListSync where
  threads : List Channel
deriving DecidableEq, Repr

/-- `impl UpdateCache for ThreadCreate` of `thread.rs`: return the cache
unchanged unless `CHANNEL` is wanted, else cache the contained channel. -/
def ThreadCreate.update (self : ThreadCreate) (cache : InMemoryCache) :
    InMemoryCache :=
  if !cache.wants ResourceType.CHANNEL then
    cache
  else
    cache.cache_channel self.channel

/-- `impl UpdateCache for ThreadDelete` of `thread.rs`: return the cache
unchanged unless `CHANNEL` is wanted, else delete the channel by id. -/
def ThreadDelete.update (self : ThreadDelete) (cache : InMemoryCache) :
    InMemoryCache :=
  if !cache.wants ResourceType.CHANNEL then
    cache
  else
    cache.delete_channel self.id

/-- `impl UpdateCache for ThreadListSync` of `thread.rs`: return the cache
unchanged unless `CHANNEL` is wanted, else cache every thread. -/
def ThreadListSync.update (self : ThreadListSync) (cache : InMemoryCache) :
    InMemoryCache :=
  if !cache.wants ResourceType.CHANNEL then
    cache
  else
    cache.cache_channels self.threads

/-- `impl UpdateCache for ThreadUpdate` of `thread.rs`: return the cache
unchanged unless `CHANNEL` is wanted, else cache the contained channel. -/
def ThreadUpdate.update (self : ThreadUpdate) (cache : InMemoryCache) :
    InMemoryCache :=
  if !cache.wants ResourceType.CHANNEL then
    cache
  else
    cache.cache_channel self.channel

/-! Concrete values used by counterexamples and witnesses. -/

/-- A URL whose host component is the IPv4 address `127.0.0.1`. -/
def ipUrl : Url :=
  { host := some (Host.ipv4 127 0 0 1), port := none }

/-- A URL with no host component at all. -/
def noHostUrl : Url :=
  { host := none, port := none }

/-- A URL with the domain host `gateway.example.com` and no explicit port. -/
def gatewayUrl : Url :=
  { host := some (Host.domain "gateway.example.com"), port := none }

/-- A concrete shared client configuration handle. -/
def sampleArc : Arc ClientConfig :=
  { id := 0, val := ClientConfig.new.add_server_trust_anchors TLS_SERVER_ROOTS }

/-- A concrete container holding the portable-backend connector. -/
def sampleContainer : TlsContainer :=
  { tls := TlsConnector.rustls sampleArc }

/-- A concrete underlying error from an external crate. -/
def sampleExtError : ExtError :=
  { message := "boom" }

/-- A concrete channel payload. -/
def sampleChannel : Channel :=
  { id := 1, data := "thread" }

/-- A cache wanting no resource type at all. -/
def cacheNone : InMemoryCache :=
  { wanted := [], channels := [] }

/-- A cache wanting exactly the `CHANNEL` resource type. -/
def cacheChan : InMemoryCache :=
  { wanted := [ResourceType.CHANNEL], channels := [] }

/-! Helper lemmas shared by the claim theorems. -/

/-- The state threaded through `tls_domain` comes back unchanged: the source
takes `&self` and only reads it. -/
lemma tls_domainSt_fst (c : TlsContainer) (u : Url) :
    (c.tls_domainSt u).1 = c := by
  unfold TlsContainer.tls_domainSt
  split
  · rfl
  · split <;> rfl

/-- Cloning a container is the identity in this embedding: both backend
handles are clones that share the underlying state. -/
lemma clone_eq (c : TlsContainer) : c.clone = c := by
  rcases c with ⟨tls⟩
  cases tls <;> rfl

/-- On a URL with a domain host, `Url.domain` yields that domain. -/
lemma url_domain_of_host_domain (u : Url) (s : String)
    (h : u.host = some (Host.domain s)) : u.domain = some s := by
  simp [Url.domain, h]

/-! Claim theorems. -/

/-- C1, counterexample: the container `sampleContainer` and the URL
`ipUrl`, whose host component is present (the IP address `127.0.0.1`),
make `tls_domain` return an error rather than `Ok`, refuting the claim
that every URL with a host component resolves successfully. -/
theorem c1_ip_host_resolve_errs :
    ipUrl.host.isSome = true ∧
      (sampleContainer.tls_domain ipUrl).isOk = false := by
  constructor <;> rfl

/-- C1 (amended): for every container and every URL whose host component is
a domain name (not an IP address), `tls_domain` returns `Ok` and the
returned address string is the domain followed by `":443"`, regardless of
any port specified in the URL itself. -/
theorem tls_domain_ok_of_domain_host (c : TlsContainer) (u : Url) (s : String)
    (h : u.host = some (Host.domain s)) :
    ∃ conn, c.tls_domain u = Except.ok (s ++ ":443", conn) := by
  have hd : u.domain = some s := url_domain_of_host_domain u s h
  rcases c with ⟨tls⟩
  cases tls with
  | native n =>
      exact ⟨Connector.NativeTls n,
        by simp [TlsContainer.tls_domain, TlsContainer.tls_domainSt, hd]⟩
  | rustls a =>
      exact ⟨Connector.Rustls a.clone,
        by simp [TlsContainer.tls_domain, TlsContainer.tls_domainSt, hd]⟩

/-- C1 witness: at the concrete container and the concrete gateway URL the
amended claim instantiates to a successful resolution to
`gateway.example.com:443`. -/
theorem tls_domain_ok_of_domain_host_witness :
    ∃ conn, sampleContainer.tls_domain gatewayUrl =
      Except.ok ("gateway.example.com" ++ ":443", conn) :=
  tls_domain_ok_of_domain_host sampleContainer gatewayUrl
    "gateway.example.com" rfl

/-- C2, counterexample: `ipUrl` has a host component, yet `tls_domain`
fails on it with kind `NoDomain`, refuting the "only if the URL has no
host component" direction of the claim. -/
theorem c2_ip_host_fails_noDomain :
    ipUrl.host.isSome = true ∧
      sampleContainer.tls_domain ipUrl =
        Except.error { kind := TlsErrorType.NoDomain, source := none } := by
  constructor <;> rfl

/-- C2 (amended): `tls_domain` fails if and only if the URL has no domain
host (no host component at all, or a host that is an IP address), and every
error it produces is exactly kind `NoDomain` with no source — an error
value carrying no address. -/
theorem tls_domain_error_iff_no_domain (c : TlsContainer) (u : Url) :
    ((c.tls_domain u).isOk = false ↔ u.domain = none) ∧
      ∀ e, c.tls_domain u = Except.error e →
        e = { kind := TlsErrorType.NoDomain, source := none } := by
  rcases c with ⟨tls⟩
  rcases hd : u.domain with _ | d
  · constructor
    · simp [TlsContainer.tls_domain, TlsContainer.tls_domainSt, hd,
        Except.isOk, Except.toBool]
    · intro e he
      cases tls <;>
        simp [TlsContainer.tls_domain, TlsContainer.tls_domainSt, hd] at he <;>
        exact he.symm
  · constructor
    · cases tls <;>
        simp [TlsContainer.tls_domain, TlsContainer.tls_domainSt, hd,
          Except.isOk, Except.toBool]
    · intro e he
      cases tls <;>
        simp [TlsContainer.tls_domain, TlsContainer.tls_domainSt, hd] at he

/-- C2 witness: at the concrete container and the host-less URL the theorem
instantiates to a concrete `NoDomain` failure carrying no source. -/
theorem tls_domain_error_iff_no_domain_witness :
    ((sampleContainer.tls_domain noHostUrl).isOk = false) ∧
      ({ kind := TlsErrorType.NoDomain, source := none : TlsError } =
        { kind := TlsErrorType.NoDomain, source := none }) :=
  ⟨((tls_domain_error_iff_no_domain sampleContainer noHostUrl).1).mpr rfl,
    (tls_domain_error_iff_no_domain sampleContainer noHostUrl).2
      { kind := TlsErrorType.NoDomain, source := none } rfl⟩

/-- C3: whenever `tls_domain` succeeds, the returned connector handle is
tagged with the active backend (`Connector.NativeTls` for the native
backend, `Connector.Rustls` for the portable backend) and wraps a clone of
the container's single stored connector — for the portable backend a
handle to the very same allocation, not a newly constructed connector. -/
theorem tls_domain_connector_wraps_stored (c : TlsContainer) (u : Url)
    (p : String × Connector) (h : c.tls_domain u = Except.ok p) :
    (∀ n, c.tls = TlsConnector.native n → p.2 = Connector.NativeTls n) ∧
      ∀ a, c.tls = TlsConnector.rustls a →
        p.2 = Connector.Rustls a.clone ∧ (a.clone).id = a.id ∧
          (a.clone).val = a.val := by
  rcases c with ⟨tls⟩
  rcases hd : u.domain with _ | d
  · cases tls <;>
      simp [TlsContainer.tls_domain, TlsContainer.tls_domainSt, hd] at h
  · cases tls with
    | native n =>
        simp [TlsContainer.tls_domain, TlsContainer.tls_domainSt, hd] at h
        constructor
        · intro n' hn'
          cases hn'
          simp [← h]
        · intro a ha
          cases ha
    | rustls a =>
        simp [TlsContainer.tls_domain, TlsContainer.tls_domainSt, hd] at h
        constructor
        · intro n' hn'
          cases hn'
        · intro a' ha'
          cases ha'
          simp [← h, Arc.clone]

/-- C3 witness: at the concrete portable-backend container and the gateway
URL, the returned connector is the `Rustls`-tagged handle sharing the
stored allocation. -/
theorem tls_domain_connector_wraps_stored_witness :
    (("gateway.example.com:443", Connector.Rustls sampleArc.clone).2 =
        Connector.Rustls sampleArc.clone ∧
      (sampleArc.clone).id = sampleArc.id ∧
        (sampleArc.clone).val = sampleArc.val) :=
  (tls_domain_connector_wraps_stored sampleContainer gatewayUrl
      ("gateway.example.com:443", Connector.Rustls sampleArc.clone) rfl).2
    sampleArc rfl

/-- C4: `tls_domain` leaves the container unchanged whether it succeeds or
fails, so a failing call for one URL does not change the result of any
later call on the same container with any URL. -/
theorem tls_domain_preserves_container (c : TlsContainer) (u₁ u₂ : Url) :
    (c.tls_domainSt u₁).1 = c ∧
      ((c.tls_domainSt u₁).1).tls_domain u₂ = c.tls_domain u₂ := by
  refine ⟨tls_domainSt_fst c u₁, ?_⟩
  rw [tls_domainSt_fst c u₁]

/-- C5: under the portable backend configured with the bundled trust-anchor
set (`rustls` with `webpki` roots), construction always returns `Ok`, for
every allocation identity the runtime may hand it. -/
theorem newRustlsWebpki_isOk (fresh : Nat) :
    (TlsContainer.newRustlsWebpki fresh).isOk = true := rfl

/-- C6: calling `tls_domain` on a clone of a container yields the same
result as on the container itself, and the clone holds the very same
underlying connector (shared ownership, not a deep copy). -/
theorem clone_resolve_agrees (c : TlsContainer) (u : Url) :
    (c.clone).tls_domain u = c.tls_domain u ∧ (c.clone).tls = c.tls := by
  rw [clone_eq]
  exact ⟨rfl, rfl⟩

/-- C7: `tls_domain` is deterministic and pure — embedded as a total
function it depends on nothing besides the container's stored connector
and the URL: two containers storing the same connector resolve every URL
identically. -/
theorem tls_domain_depends_only_on_connector (c₁ c₂ : TlsContainer) (u : Url)
    (h : c₁.tls = c₂.tls) : c₁.tls_domain u = c₂.tls_domain u := by
  rcases c₁ with ⟨t₁⟩
  rcases c₂ with ⟨t₂⟩
  cases h
  rfl

/-- C7 witness: instantiated at the concrete container against itself and
the gateway URL. -/
theorem tls_domain_depends_only_on_connector_witness :
    sampleContainer.tls_domain gatewayUrl =
      sampleContainer.tls_domain gatewayUrl :=
  tls_domain_depends_only_on_connector sampleContainer sampleContainer
    gatewayUrl rfl

/-- C9: for every cache and every thread event, if the cache does not want
the `CHANNEL` resource type the update leaves the cache unchanged, and if
it does the update is exactly the corresponding storage primitive applied
to the event's payload: `ThreadCreate`/`ThreadUpdate` insert the contained
channel, `ThreadDelete` deletes by the event's id, `ThreadListSync` inserts
every thread. -/
theorem thread_update_gated_passthrough (cache : InMemoryCache)
    (tc : ThreadCreate) (tu : ThreadUpdate) (td : ThreadDelete)
    (ts : ThreadListSync) :
    (cache.wants ResourceType.CHANNEL = false →
      tc.update cache = cache ∧ tu.update cache = cache ∧
        td.update cache = cache ∧ ts.update cache = cache) ∧
      (cache.wants ResourceType.CHANNEL = true →
        tc.update cache = cache.cache_channel tc.channel ∧
          tu.update cache = cache.cache_channel tu.channel ∧
            td.update cache = cache.delete_channel td.id ∧
              ts.update cache = cache.cache_channels ts.threads) := by
  constructor
  · intro h
    simp [ThreadCreate.update, ThreadUpdate.update, ThreadDelete.update,
      ThreadListSync.update, h]
  · intro h
    simp [ThreadCreate.update, ThreadUpdate.update, ThreadDelete.update,
      ThreadListSync.update, h]

/-- C9 witness: instantiated at a cache wanting nothing (updates are
identities) and a cache wanting `CHANNEL` (updates are the primitives). -/
theorem thread_update_gated_passthrough_witness :
    (ThreadCreate.update { channel := sampleChannel } cacheNone = cacheNone ∧
      ThreadUpdate.update { channel := sampleChannel } cacheNone = cacheNone ∧
        ThreadDelete.update { id := 1 } cacheNone = cacheNone ∧
          ThreadListSync.update { threads := [sampleChannel] } cacheNone =
            cacheNone) ∧
      (ThreadCreate.update { channel := sampleChannel } cacheChan =
          cacheChan.cache_channel sampleChannel ∧
        ThreadUpdate.update { channel := sampleChannel } cacheChan =
            cacheChan.cache_channel sampleChannel ∧
          ThreadDelete.update { id := 1 } cacheChan =
              cacheChan.delete_channel 1 ∧
            ThreadListSync.update { threads := [sampleChannel] } cacheChan =
              cacheChan.cache_channels [sampleChannel]) :=
  ⟨(thread_update_gated_passthrough cacheNone { channel := sampleChannel }
      { channel := sampleChannel } { id := 1 }
      { threads := [sampleChannel] }).1 (by decide),
    (thread_update_gated_passthrough cacheChan { channel := sampleChannel }
      { channel := sampleChannel } { id := 1 }
      { threads := [sampleChannel] }).2 (by decide)⟩

/-- C10: every error produced by `tls_domain` is of kind `NoDomain` and
carries no underlying cause (`into_source` is `none`), whereas every error
produced by either fallible constructor — kind `NativeTls` for the native
backend, kind `NativeCerts` for the portable backend loading OS roots —
always carries some underlying source error. -/
theorem error_source_discipline :
    (∀ (c : TlsContainer) (u : Url) (e : TlsError),
      c.tls_domain u = Except.error e →
        e.kind = TlsErrorType.NoDomain ∧ e.into_source = none) ∧
      (∀ (r : Except ExtError NativeTlsState) (e : TlsError),
        TlsContainer.newNative r = Except.error e →
          e.kind = TlsErrorType.NativeTls ∧ e.into_source.isSome = true) ∧
        ∀ (r : Except ExtError (List TrustAnchor)) (fresh : Nat)
          (e : TlsError),
          TlsContainer.newRustlsNativeRoots r fresh = Except.error e →
            e.kind = TlsErrorType.NativeCerts ∧ e.into_source.isSome = true := by
  refine ⟨?_, ?_, ?_⟩
  · intro c u e he
    rcases c with ⟨tls⟩
    rcases hd : u.domain with _ | d
    · cases tls <;>
        simp [TlsContainer.tls_domain, TlsContainer.tls_domainSt, hd] at he <;>
        simp [← he, TlsError.into_source]
    · cases tls <;>
        simp [TlsContainer.tls_domain, TlsContainer.tls_domainSt, hd] at he
  · intro r e he
    cases r with
    | error err =>
        simp [TlsContainer.newNative] at he
        simp [← he, TlsError.into_source]
    | ok v => simp [TlsContainer.newNative] at he
  · intro r fresh e he
    cases r with
    | error err =>
        simp [TlsContainer.newRustlsNativeRoots] at he
        simp [← he, TlsError.into_source]
    | ok v => simp [TlsContainer.newRustlsNativeRoots] at he

/-- C10 witness: instantiated at the concrete host-less URL failure and at
concrete failing outcomes of both external constructors. -/
theorem error_source_discipline_witness :
    (TlsErrorType.NoDomain = TlsErrorType.NoDomain ∧
      ({ kind := TlsErrorType.NoDomain, source := none :
        TlsError }).into_source = none) ∧
      (TlsErrorType.NativeTls = TlsErrorType.NativeTls ∧
        ({ kind := TlsErrorType.NativeTls, source := some sampleExtError :
          TlsError }).into_source.isSome = true) ∧
        (TlsErrorType.NativeCerts = TlsErrorType.NativeCerts ∧
          ({ kind := TlsErrorType.NativeCerts, source := some sampleExtError :
            TlsError }).into_source.isSome = true) :=
  ⟨error_source_discipline.1 sampleContainer noHostUrl
      { kind := TlsErrorType.NoDomain, source := none } rfl,
    error_source_discipline.2.1 (Except.error sampleExtError)
      { kind := TlsErrorType.NativeTls, source := some sampleExtError } rfl,
    error_source_discipline.2.2 (Except.error sampleExtError) 0
      { kind := TlsErrorType.NativeCerts, source := some sampleExtError } rfl⟩

end Twilight
